import Mathlib

/-!
Shallow embedding of `src/Core/Src/wifi.c` (ISM43362-M3G-L44 WiFi driver).

Bytes are modelled as `Nat` (values 0..255 in practice); C buffers are
`List Nat` whose length is the buffer capacity.  C's 32-bit unsigned index
arithmetic is modelled with explicit wrap-around where it matters
(`endPos - 1` when `endPos = 0` wraps to `2^32 - 1`).  An execution that
dereferences memory outside a buffer is undefined behaviour in C; such
paths return `none` (for `Option`-valued functions) or a dedicated
out-of-bounds result constructor.
-/

/-- Largest `uint32_t` value: `0u - 1u` in 32-bit unsigned arithmetic. -/
def U32MAX : Nat := 4294967295

/-- `strlen`: number of bytes before the first null byte of the list.
If the list holds no null byte this is the whole length (in C, `strlen`
would keep reading past the object, but every use below feeds it a list
that is the complete accessible region). -/
def cstrlen (s : List Nat) : Nat := (s.takeWhile (fun b => b ≠ 0)).length

/-- The C string stored in a buffer: the bytes before the first null. -/
def cstr (s : List Nat) : List Nat := s.takeWhile (fun b => b ≠ 0)

/-- `snprintf(dst, n, src)` used as a bounded string copy (that is how
`wifi.c` uses it: the format string carries no conversions).  It writes
`min(strlen(src), n-1)` bytes of `src` plus a terminating null into `dst`;
with `n = 0` nothing is written.  Writing past `dst`'s capacity is
undefined behaviour: `none`.  For the in-place use inside `trimstr`
(`dst` below `src` in the same object) a forward copy reads each source
byte before it can be overwritten, so taking the source bytes from the
pre-call buffer is exact. -/
def snprintfModel (dst : List Nat) (n : Nat) (src : List Nat) : Option (List Nat) :=
  if n = 0 then some dst
  else
    let L := min (cstrlen src) (n - 1)
    if L + 1 ≤ dst.length then
      some (src.take L ++ 0 :: dst.drop (L + 1))
    else none

/-- First loop of `trimstr` (wifi.c:230-236): `endPos` is the index of the
first null byte; if no byte of the buffer is null, `endPos` keeps its
initial value `0`. -/
def findNullPos (s : List Nat) : Nat :=
  let j := s.findIdx (fun b => b = 0)
  if j < s.length then j else 0

/-- Second loop of `trimstr` (wifi.c:242-248), scanning backward:
`for (uint32_t i = start; i > 0; i--) { if (str[i] == c) { str[i] = 0;
endPos = i; } else break; }`.  Arguments: trim byte `c`, current index
`i`, buffer, current `endPos`.  Reading an index outside the buffer is
undefined behaviour: `none`. -/
def backLoop (c : Nat) : Nat → List Nat → Nat → Option (List Nat × Nat)
  | 0, s, e => some (s, e)
  | i + 1, s, e =>
    if h : i + 1 < s.length then
      if s.get ⟨i + 1, h⟩ = c then backLoop c i (s.set (i + 1) 0) (i + 1)
      else some (s, e)
    else none

/-- Third loop of `trimstr` (wifi.c:251-255): `trimPos` ends up being the
length of the leading run of bytes equal to `c`. -/
def trimPosOf (s : List Nat) (c : Nat) : Nat :=
  (s.takeWhile (fun b => b = c)).length

/-- `trimstr(str, strSize, c)` from wifi.c:224-258, acting on a buffer of
capacity `s.length`.  The backward scan starts at `endPos - 1` computed in
`uint32_t`; when `endPos = 0` (first byte already null, or no null in the
buffer) that start index wraps to `2^32 - 1`.  The final Nat subtraction
`e + 1 - tp` agrees with the C `uint32_t` subtraction because on every
path that reaches it `tp ≤ e` (the byte at index `e` is null, so the
leading run of `c` bytes stops at or before `e` when `c ≠ 0`, and starts
after index `0` fails when `c = 0`). -/
def trimstr (s : List Nat) (c : Nat) : Option (List Nat) :=
  let e0 := findNullPos s
  let start := if e0 = 0 then U32MAX else e0 - 1
  match backLoop c start s e0 with
  | none => none
  | some (mid, e) =>
    let tp := trimPosOf mid c
    snprintfModel mid (e + 1 - tp) (mid.drop tp)

/-! ## `WIFI_SPI_Receive` (wifi.c:15-34)

The hardware environment is passed as oracles: `ready k` is the value of
the `WIFI_IS_CMDDATA_READY()` poll at the top of the k-th loop iteration,
`rxOk k` tells whether the k-th `HAL_SPI_Receive` call returns `HAL_OK`,
and `rxU k` is the 2-byte unit it stores (the SPI transport moves 16-bit
units, i.e. two bytes per call, at `buffer + cnt`). -/

/-- Cause of an `Error_Handler()` escalation inside the receive loop:
the `||` in wifi.c:23 tests the cursor bound first (short-circuit), so an
overflow fault is raised before the HAL transfer is even attempted. -/
inductive FaultReason
  | overflow
  | transport
  deriving DecidableEq

/-- Outcome of the receive loop.  `oob` marks the undefined behaviour of a
HAL transfer writing past the buffer (shown unreachable below); `hang`
marks exhaustion of the analysis step budget. -/
inductive RxResult
  | ok (buf : List Nat)
  | fault (r : FaultReason)
  | oob
  | hang
  deriving DecidableEq

/-- The `while (WIFI_IS_CMDDATA_READY())` loop of wifi.c:20-28.  `cnt` is
the `uint16_t` write cursor (the compound assignment `cnt += 2` stores
back into `uint16_t`, wrapping at 65536).  In the guard
`cnt > (size - 2)` both `uint16_t` operands undergo integer promotion to
32-bit `int` before the subtraction and comparison, so the bound is the
signed value `size - 2` — negative for `size < 2`, in which case the
first iteration already faults.  Each accepted transfer stores one
2-byte unit at `cnt, cnt+1`; storing outside the buffer would be `oob`. -/
def rxLoop (ready rxOk : Nat → Bool) (rxU : Nat → Nat × Nat) (size : Nat) :
    Nat → Nat → Nat → List Nat → RxResult
  | 0, _, _, _ => .hang
  | fuel + 1, k, cnt, buf =>
    if ready k then
      if (cnt : Int) > (size : Int) - 2 then .fault .overflow
      else if rxOk k then
        if cnt + 1 < buf.length then
          rxLoop ready rxOk rxU size fuel (k + 1) ((cnt + 2) % 65536)
            ((buf.set cnt (rxU k).1).set (cnt + 1) (rxU k).2)
        else .oob
      else .fault .transport
    else .ok buf

/-- Final outcome of `WIFI_SPI_Receive`: the loop outcome, with `trimstr`
applied to the buffer on the normal exit.  `trimUB` marks the
undefined behaviour inside `trimstr` itself (buffer whose first byte is
null, see the `backLoop` start-index wrap). -/
inductive RxOut
  | ok (buf : List Nat)
  | fault (r : FaultReason)
  | oob
  | hang
  | trimUB
  deriving DecidableEq

/-- `WIFI_SPI_Receive(hwifi, buffer, size)`: `memset` the buffer to nulls,
run the ready-gated fill loop from `cnt = 0`, then trim the RX padding
byte `pad` (`WIFI_RX_PADDING`) from both ends. -/
def WIFI_SPI_Receive (ready rxOk : Nat → Bool) (rxU : Nat → Nat × Nat)
    (pad size fuel : Nat) : RxOut :=
  match rxLoop ready rxOk rxU size fuel 0 0 (List.replicate size 0) with
  | .ok buf =>
    match trimstr buf pad with
    | some t => .ok t
    | none => .trimUB
  | .fault r => .fault r
  | .oob => .oob
  | .hang => .hang

/-! ## `WIFI_SPI_Transmit` (wifi.c:46-59)

`char bTx[(size/2)*2 + 1]` is an uninitialised stack array: its initial
bytes are arbitrary, supplied by the oracle `vla`.  `snprintf(bTx, size,
buffer)` copies the command.  Then, for even `size`, the source calls
`strcat(bTx, (char) WIFI_TX_PADDING)`: the *character value* of the
padding sentinel is passed where `strcat` expects a pointer to a
null-terminated string.  The bytes actually appended are therefore
whatever memory holds at that address; they are supplied by the oracle
list `memAtPad` (the null-terminated string found there).  Finally
`HAL_SPI_Transmit(..., bTx, size/2, ...)` sends `size/2` 16-bit units,
i.e. the first `(size/2)*2` bytes of `bTx`. -/

/-- Length of the `bTx` VLA: `(size/2)*2 + 1`. -/
def bTxLen (size : Nat) : Nat := (size / 2) * 2 + 1

/-- `strcat(dst, src)` where `src` is the list of bytes of the source
string (without its terminator).  Appends at the first null of `dst`;
writing past `dst`'s capacity is undefined behaviour (`none`), as is a
`dst` with no null byte. -/
def strcatModel (dst src : List Nat) : Option (List Nat) :=
  let l := cstrlen dst
  if l + src.length + 1 ≤ dst.length then
    some (dst.take l ++ src ++ 0 :: dst.drop (l + src.length + 1))
  else none

/-- Memory state of a `WIFI_SPI_Transmit` call: the caller's command
buffer and the local `bTx` working array.  Every store the function
performs targets `bTx`; the model gives each C object its own list, so
the components record exactly which object each write goes to. -/
structure TxMem where
  caller : List Nat
  bTx : List Nat
  deriving DecidableEq

/-- `WIFI_SPI_Transmit(hwifi, buffer, size)` as a memory-state function:
returns the final state of both buffers and the bytes handed to
`HAL_SPI_Transmit` (`none` on an undefined-behaviour path). -/
def WIFI_SPI_Transmit_mem (caller : List Nat) (size : Nat) (vla : Nat → Nat)
    (memAtPad : List Nat) : TxMem × Option (List Nat) :=
  match snprintfModel ((List.range (bTxLen size)).map vla) size caller with
  | none => (⟨caller, (List.range (bTxLen size)).map vla⟩, none)
  | some b1 =>
    match (if size % 2 = 0 then strcatModel b1 memAtPad else some b1) with
    | none => (⟨caller, b1⟩, none)
    | some b2 => (⟨caller, b2⟩, some (b2.take ((size / 2) * 2)))

/-- The frame handed to the SPI transport by `WIFI_SPI_Transmit`. -/
def WIFI_SPI_Transmit (caller : List Nat) (size : Nat) (vla : Nat → Nat)
    (memAtPad : List Nat) : Option (List Nat) :=
  (WIFI_SPI_Transmit_mem caller size vla memAtPad).2

/-! ## Side-effect traces: `WIFI_SendATCommand` (wifi.c:96-117),
`WIFI_Init` (wifi.c:68-82), `WIFI_CreateNewNetwork` (wifi.c:127-164)

Each externally visible action is an event.  `Error_Handler()` does not
return, so a trace ending in `fault` has no further events; the `Bool`
paired with a trace tells whether control flow is still alive. -/

/-- Externally visible actions of the driver. -/
inductive Ev
  | reset
  | nssEnable
  | nssDisable
  | waitReady
  | spiTransmit
  | spiReceive
  | overflowCheck
  | fault
  deriving DecidableEq

/-- Sequencing of traced steps: if the first step died (its `Error_Handler`
does not return), the second never runs. -/
def stepT (a b : List Ev × Bool) : List Ev × Bool :=
  if a.2 then (a.1 ++ b.1, b.2) else a

/-- Trace of one `WIFI_SendATCommand` call.  `txOk` / `rxOk` say whether
the inner transmit / receive completed without calling `Error_Handler`;
`readyAfterRx` is the `WIFI_IS_CMDDATA_READY()` value sampled right after
the receive (wifi.c:112), whose assertion means the response buffer was
too small and escalates a fault. -/
def WIFI_SendATCommand_trace (txOk rxOk readyAfterRx : Bool) : List Ev × Bool :=
  stepT (stepT (stepT (stepT (stepT (stepT (stepT (stepT
    ([Ev.waitReady], true)
    ([Ev.nssEnable], true))
    (if txOk then ([Ev.spiTransmit], true) else ([Ev.spiTransmit, Ev.fault], false)))
    ([Ev.nssDisable], true))
    ([Ev.waitReady], true))
    ([Ev.nssEnable], true))
    (if rxOk then ([Ev.spiReceive], true) else ([Ev.spiReceive, Ev.fault], false)))
    (if readyAfterRx then ([Ev.overflowCheck, Ev.fault], false)
     else ([Ev.overflowCheck], true)))
    ([Ev.nssDisable], true)

/-- Trace of `WIFI_Init`: reset the module, enable NSS, busy-wait for
ready, receive the power-up banner into the RX buffer, compare it with
`strcmp` against the expected literal (`WIFI_MSG_POWERUP`): any
difference of the two C strings escalates a fault before NSS is ever
released; on a match NSS is deasserted and init succeeds.  `banner` is
the RX buffer content after the receive, `expected` the literal. -/
def WIFI_Init_trace (banner expected : List Nat) : List Ev × Bool :=
  stepT ([Ev.reset, Ev.nssEnable, Ev.waitReady, Ev.spiReceive], true)
    (if cstr banner = cstr expected then ([Ev.nssDisable], true)
     else ([Ev.fault], false))

/-- Trace of the five AT commands of `WIFI_CreateNewNetwork` (soft-AP
activation, passphrase, SSID, direct mode, status query), each an
exchange through `WIFI_SendATCommand`; `envs i` carries the environment
flags of the i-th exchange. -/
def WIFI_CreateNewNetwork_trace (envs : Nat → Bool × Bool × Bool) : List Ev × Bool :=
  stepT (stepT (stepT (stepT
    (WIFI_SendATCommand_trace (envs 0).1 (envs 0).2.1 (envs 0).2.2)
    (WIFI_SendATCommand_trace (envs 1).1 (envs 1).2.1 (envs 1).2.2))
    (WIFI_SendATCommand_trace (envs 2).1 (envs 2).2.1 (envs 2).2.2))
    (WIFI_SendATCommand_trace (envs 3).1 (envs 3).2.1 (envs 3).2.2))
    (WIFI_SendATCommand_trace (envs 4).1 (envs 4).2.1 (envs 4).2.2)

/-- Bring-up: `WIFI_Init` followed (if init survived) by the provisioning
commands of `WIFI_CreateNewNetwork`. -/
def WIFI_BringUp_trace (banner expected : List Nat)
    (envs : Nat → Bool × Bool × Bool) : List Ev × Bool :=
  stepT (WIFI_Init_trace banner expected) (WIFI_CreateNewNetwork_trace envs)

/-! ## IP extraction of `WIFI_CreateNewNetwork` (wifi.c:156-161) -/

/-- The address-parsing tail of `WIFI_CreateNewNetwork`:
`ipStart = strstr(wifiRxBuffer, ",") + 1; ipEnd = strstr(ipStart, ",");
memset(ipAddress, 0, cap); snprintf(ipAddress, ipEnd - ipStart + 1,
ipStart)`.  `strstr` searches only up to the terminator; a missing comma
makes it return `NULL` and the subsequent pointer arithmetic and copy are
undefined behaviour (`none`).  `ipCap` is `sizeof(hwifi->ipAddress)`. -/
def WIFI_CreateNewNetwork_ip (rx : List Nat) (ipCap : Nat) : Option (List Nat) :=
  match List.findIdx? (fun b => b = 44) (cstr rx) with
  | none => none
  | some p1 =>
    match List.findIdx? (fun b => b = 44) ((cstr rx).drop (p1 + 1)) with
    | none => none
    | some d =>
      snprintfModel (List.replicate ipCap 0) (d + 1) (rx.drop (p1 + 1))

/-! ## Helper lemmas for the receive loop -/

/-- The receive loop never stores outside the buffer, at any capacity:
whenever the promoted guard `cnt > size - 2` lets an iteration proceed,
`cnt + 2 ≤ size`, so the 2-byte store at `cnt, cnt+1` is in bounds (and
for `size < 2` the guard faults before the first transfer is even
attempted). -/
theorem rxLoop_ne_oob (ready rxOk : Nat → Bool) (rxU : Nat → Nat × Nat) (size : Nat) :
    ∀ fuel k cnt buf, buf.length = size →
      rxLoop ready rxOk rxU size fuel k cnt buf ≠ RxResult.oob := by
  intro fuel
  induction fuel with
  | zero => intro k cnt buf hlen; simp [rxLoop]
  | succ n ih =>
    intro k cnt buf hlen
    simp only [rxLoop]
    by_cases hr : ready k
    · simp only [hr, if_true]
      by_cases hov : (cnt : Int) > (size : Int) - 2
      · simp [hov]
      · rw [if_neg hov]
        by_cases hok : rxOk k
        · simp only [hok, if_true]
          have hb : cnt + 1 < buf.length := by
            rw [hlen]; omega
          rw [if_pos hb]
          apply ih
          simp [hlen]
        · simp [hok]
    · simp [hr]

/-- If the ready line never deasserts and every transfer succeeds, the
receive loop escalates an overflow fault (given enough fuel to reach the
cursor bound). -/
theorem rxLoop_overflow_of_ready (ready rxOk : Nat → Bool) (rxU : Nat → Nat × Nat)
    (size : Nat) (hle : size ≤ 65535)
    (hready : ∀ k, ready k = true) (hok : ∀ k, rxOk k = true) :
    ∀ fuel k cnt buf, buf.length = size → cnt ≤ size → size + 1 ≤ fuel + cnt →
      rxLoop ready rxOk rxU size fuel k cnt buf = RxResult.fault FaultReason.overflow := by
  intro fuel
  induction fuel with
  | zero => intro k cnt buf hlen hcnt hfuel; omega
  | succ n ih =>
    intro k cnt buf hlen hcnt hfuel
    simp only [rxLoop, hready k, if_true]
    by_cases hov : (cnt : Int) > (size : Int) - 2
    · simp [hov]
    · rw [if_neg hov]
      simp only [hok k, if_true]
      have hb : cnt + 1 < buf.length := by
        rw [hlen]; omega
      rw [if_pos hb]
      apply ih
      · simp [hlen]
      · omega
      · omega

/-! ## Claims -/

/-- Claim C1 (code bug): trimming is claimed idempotent, but it is not.
Trimming the two-sentinel string `[1,1,0]` (sentinel `c = 1`) yields the
empty string in buffer `[0,0,0]`; trimming that result again finds the
first null at index 0, so the backward scan start `endPos - 1` wraps to
`2^32 - 1` and the scan reads out of bounds (modelled `none`) instead of
being a no-op.  Hence `trimstr (trimstr s c) c ≠ trimstr s c` at this
input. -/
theorem trimstr_not_idempotent_at_sentinel_pair :
    trimstr [1, 1, 0] 1 = some [0, 0, 0] ∧
    (trimstr [1, 1, 0] 1).bind (fun t => trimstr t 1) = none ∧
    (trimstr [1, 1, 0] 1).bind (fun t => trimstr t 1) ≠ trimstr [1, 1, 0] 1 := by
  decide

/-- Claim C2 (code bug): the backward scan is claimed to stay inside the
buffer even when the logical end `E` is 0, but for the buffer `[0,65]`
(first byte null, so `endPos = 0`) the scan's start index `endPos - 1`
computed in `uint32_t` wraps to `U32MAX = 2^32 - 1`, and the first loop
iteration reads `str[4294967295]`, far outside the 2-byte buffer
(modelled `none`). -/
theorem trimstr_backscan_oob_when_first_byte_null :
    trimstr [0, 65] 21 = none ∧ backLoop 21 U32MAX [0, 65] 0 = none := by
  decide

/-- Claim C3 (counterexample): trimming the buffer
`\x00 A A A \x00 \x00 \x00` with sentinel `\x00` does not yield the
string "AAA": the first byte is null, so the logical end is position 0
and the backward scan underflows out of bounds (`none`); no output
buffer holding "AAA" is produced. -/
theorem trimstr_nul_sentinel_example_fails :
    ¬ ∃ out, trimstr [0, 65, 65, 65, 0, 0, 0] 0 = some out ∧ cstr out = [65, 65, 65] := by
  rintro ⟨out, h1, h2⟩
  have hn : trimstr [0, 65, 65, 65, 0, 0, 0] 0 = none := by decide
  rw [hn] at h1
  exact Option.noConfusion h1

/-- Claim C3 (amended): with sentinel `\x00`, a leading sentinel byte is
itself the string terminator, so the logical end of both example buffers
is position 0 and the backward scan underflows out of bounds (`none`):
neither "AAA" nor "hello" is produced.  When the sentinel run is only at
the tail — `AAA\x00...` and `hello\x00...` — trimming with `\x00` leaves
the buffer unchanged, so the strings "AAA" and "hello" survive. -/
theorem trimstr_nul_sentinel_examples :
    trimstr [0, 65, 65, 65, 0, 0, 0] 0 = none ∧
    trimstr [0, 0, 104, 101, 108, 108, 111, 0] 0 = none ∧
    trimstr [65, 65, 65, 0, 0, 0, 0] 0 = some [65, 65, 65, 0, 0, 0, 0] ∧
    trimstr [104, 101, 108, 108, 111, 0, 0, 0] 0 = some [104, 101, 108, 108, 111, 0, 0, 0] := by
  decide

/-- Claim C4 (code bug): an all-sentinel buffer is claimed to trim to the
empty string without underflow, but a buffer holding only sentinel bytes
(here `[5]`, sentinel 5, any `n ≥ 1` behaves alike) contains no null
terminator, so `endPos` keeps its initial value 0 and the backward scan
start wraps to `2^32 - 1`: an out-of-bounds read (`none`), not an empty
string.  Only a null-terminated sentinel string, e.g. `[5,5,5,0]`, trims
to the empty string as claimed. -/
theorem trimstr_all_sentinel_underflow :
    trimstr [5] 5 = none ∧ trimstr [5, 5, 5, 0] 5 = some [0, 0, 0, 0] := by
  decide

/-- Claim C5: for every buffer capacity `size` (a `uint16_t`): if the
Ready signal is still asserted once the write cursor exceeds `size - 2`,
the receive escalates an overflow fault, and on no environment does any
transfer write past the buffer — the fault always fires before an
out-of-bounds store, so no response is silently truncated.  The
comparison `cnt > (size - 2)` of wifi.c:23 is performed after integer
promotion to 32-bit `int`, so for capacities 0 and 1 the bound is
negative and the very first iteration faults before any transfer. -/
theorem WIFI_SPI_Receive_overflow_guard (ready rxOk : Nat → Bool)
    (rxU : Nat → Nat × Nat) (pad size fuel : Nat) (hle : size ≤ 65535) :
    ((∀ k, ready k = true) → (∀ k, rxOk k = true) → size + 1 ≤ fuel →
        WIFI_SPI_Receive ready rxOk rxU pad size fuel = RxOut.fault FaultReason.overflow) ∧
    WIFI_SPI_Receive ready rxOk rxU pad size fuel ≠ RxOut.oob := by
  constructor
  · intro hready hok hfuel
    unfold WIFI_SPI_Receive
    rw [rxLoop_overflow_of_ready ready rxOk rxU size hle hready hok fuel 0 0
      (List.replicate size 0) (by simp) (by omega) (by omega)]
  · have hne := rxLoop_ne_oob ready rxOk rxU size fuel 0 0
      (List.replicate size 0) (by simp)
    unfold WIFI_SPI_Receive
    intro hcon
    cases hr : rxLoop ready rxOk rxU size fuel 0 0 (List.replicate size 0) with
    | ok buf =>
      rw [hr] at hcon
      simp only [] at hcon
      cases htp : trimstr buf pad with
      | none => rw [htp] at hcon; exact RxOut.noConfusion hcon
      | some t => rw [htp] at hcon; exact RxOut.noConfusion hcon
    | fault r => rw [hr] at hcon; exact RxOut.noConfusion hcon
    | oob => exact hne hr
    | hang => rw [hr] at hcon; exact RxOut.noConfusion hcon

/-- Witness for `WIFI_SPI_Receive_overflow_guard` at capacity 1 with an
always-ready peer: the promoted bound `1 - 2 = -1` makes the first
iteration fault, before any transfer could write past the 1-byte
buffer. -/
theorem WIFI_SPI_Receive_overflow_guard_witness :
    WIFI_SPI_Receive (fun _ => true) (fun _ => true) (fun _ => (65, 66)) 21 1 2 =
      RxOut.fault FaultReason.overflow ∧
    WIFI_SPI_Receive (fun _ => true) (fun _ => true) (fun _ => (65, 66)) 21 1 2 ≠
      RxOut.oob :=
  ⟨(WIFI_SPI_Receive_overflow_guard (fun _ => true) (fun _ => true) (fun _ => (65, 66))
      21 1 2 (by decide)).1 (fun _ => rfl) (fun _ => rfl) (by decide),
   (WIFI_SPI_Receive_overflow_guard (fun _ => true) (fun _ => true) (fun _ => (65, 66))
      21 1 2 (by decide)).2⟩

/-- Claim C6 (code bug): for an even declared size the source is meant to
append exactly one TX padding sentinel, but `strcat(bTx, (char)
WIFI_TX_PADDING)` passes the sentinel's character value where `strcat`
expects a pointer to a string: the bytes appended are whatever memory
holds at that address.  With command "AT\r" (declared size 4, sentinel
value 10): if that memory happens to hold the single byte 10 the frame
ends in the sentinel, but if it holds 88 the frame ends in 88, and if it
holds two bytes the append overruns `bTx` (undefined behaviour, `none`).
For an odd declared size no append is attempted and `size/2` units of the
copied command are sent. -/
theorem WIFI_SPI_Transmit_strcat_bug :
    WIFI_SPI_Transmit [65, 84, 13, 0] 4 (fun _ => 90) [10] = some [65, 84, 13, 10] ∧
    WIFI_SPI_Transmit [65, 84, 13, 0] 4 (fun _ => 90) [88] = some [65, 84, 13, 88] ∧
    WIFI_SPI_Transmit [65, 84, 13, 0] 4 (fun _ => 90) [10, 10] = none ∧
    WIFI_SPI_Transmit [65, 84, 0] 3 (fun _ => 90) [10] = some [65, 84] := by
  decide

/-- Claim C7: when the inner transmit and receive succeed, every
`WIFI_SendATCommand` call performs exactly the sequence wait-for-Ready,
assert select, transmit, deassert select, wait-for-Ready, assert select,
receive, overflow check — and then either escalates a fatal fault (when
Ready is still asserted right after the receive, i.e. the response
buffer was undersized) or deasserts select and completes; there is no
other branching. -/
theorem WIFI_SendATCommand_order (r : Bool) :
    WIFI_SendATCommand_trace true true r =
      ([Ev.waitReady, Ev.nssEnable, Ev.spiTransmit, Ev.nssDisable, Ev.waitReady,
        Ev.nssEnable, Ev.spiReceive, Ev.overflowCheck] ++
          (if r then [Ev.fault] else [Ev.nssDisable]),
       !r) := by
  cases r <;> rfl

/-- Claim C8: if the banner received by `WIFI_Init` differs, as a C
string, from the expected power-up literal, bring-up escalates a fatal
fault immediately after the receive and no AT command is ever
transmitted; only an exact match lets init succeed and proceed to the
provisioning commands. -/
theorem WIFI_Init_banner_guard (banner expected : List Nat)
    (envs : Nat → Bool × Bool × Bool) :
    (cstr banner ≠ cstr expected →
        WIFI_BringUp_trace banner expected envs =
          ([Ev.reset, Ev.nssEnable, Ev.waitReady, Ev.spiReceive, Ev.fault], false) ∧
        Ev.spiTransmit ∉ (WIFI_BringUp_trace banner expected envs).1) ∧
    (cstr banner = cstr expected → (WIFI_Init_trace banner expected).2 = true) := by
  constructor
  · intro h
    have hinit : WIFI_Init_trace banner expected =
        ([Ev.reset, Ev.nssEnable, Ev.waitReady, Ev.spiReceive, Ev.fault], false) := by
      unfold WIFI_Init_trace
      rw [if_neg h]
      rfl
    have hbr : WIFI_BringUp_trace banner expected envs =
        ([Ev.reset, Ev.nssEnable, Ev.waitReady, Ev.spiReceive, Ev.fault], false) := by
      unfold WIFI_BringUp_trace
      rw [hinit]
      rfl
    refine ⟨hbr, ?_⟩
    rw [hbr]
    decide
  · intro h
    unfold WIFI_Init_trace
    rw [if_pos h]
    rfl

/-- Witness for `WIFI_Init_banner_guard`: banner "B" against expected
"A" faults with no transmit; banner "A" against "A" proceeds. -/
theorem WIFI_Init_banner_guard_witness :
    (WIFI_BringUp_trace [66, 0] [65, 0] (fun _ => (true, true, false)) =
        ([Ev.reset, Ev.nssEnable, Ev.waitReady, Ev.spiReceive, Ev.fault], false) ∧
      Ev.spiTransmit ∉ (WIFI_BringUp_trace [66, 0] [65, 0] (fun _ => (true, true, false))).1) ∧
    (WIFI_Init_trace [65, 0] [65, 0]).2 = true :=
  ⟨(WIFI_Init_banner_guard [66, 0] [65, 0] (fun _ => (true, true, false))).1 (by decide),
   (WIFI_Init_banner_guard [65, 0] [65, 0] (fun _ => (true, true, false))).2 (by decide)⟩

/-- Claim C9: with the status-query response buffer holding the bytes of
"AT,10.0.0.5,END\r", `WIFI_CreateNewNetwork` extracts the substring
between the first comma and the next one, "10.0.0.5", null-terminates
it, and stores it in the zeroed assigned-address field (of any capacity
with room for the 9 written bytes). -/
theorem WIFI_CreateNewNetwork_extracts_ip (cap : Nat) (h : 9 ≤ cap) :
    WIFI_CreateNewNetwork_ip
        [65, 84, 44, 49, 48, 46, 48, 46, 48, 46, 53, 44, 69, 78, 68, 13, 0] cap =
      some ([49, 48, 46, 48, 46, 48, 46, 53] ++ 0 :: List.replicate (cap - 9) 0) := by
  have h1 : WIFI_CreateNewNetwork_ip
      [65, 84, 44, 49, 48, 46, 48, 46, 48, 46, 53, 44, 69, 78, 68, 13, 0] cap =
      snprintfModel (List.replicate cap 0) 9
        [49, 48, 46, 48, 46, 48, 46, 53, 44, 69, 78, 68, 13, 0] := rfl
  rw [h1]
  unfold snprintfModel
  have hL : min (cstrlen [49, 48, 46, 48, 46, 48, 46, 53, 44, 69, 78, 68, 13, 0]) (9 - 1)
      = 8 := by decide
  simp only [hL]
  rw [if_neg (by omega : ¬ (9 : Nat) = 0), if_pos (by simp; omega)]
  simp [List.drop_replicate]

/-- Witness for `WIFI_CreateNewNetwork_extracts_ip` at an address field
of capacity 16. -/
theorem WIFI_CreateNewNetwork_extracts_ip_witness :
    WIFI_CreateNewNetwork_ip
        [65, 84, 44, 49, 48, 46, 48, 46, 48, 46, 53, 44, 69, 78, 68, 13, 0] 16 =
      some ([49, 48, 46, 48, 46, 48, 46, 53] ++ 0 :: List.replicate (16 - 9) 0) :=
  WIFI_CreateNewNetwork_extracts_ip 16 (by decide)

/-- Claim C10: `WIFI_SPI_Transmit` never modifies the caller's command
buffer: the command is copied into the local `bTx` working array and
every store of the function (the `snprintf` copy and the buggy `strcat`
append) targets `bTx`, so the caller's buffer is returned byte-for-byte
unchanged on every path. -/
theorem WIFI_SPI_Transmit_preserves_caller (caller : List Nat) (size : Nat)
    (vla : Nat → Nat) (memAtPad : List Nat) :
    (WIFI_SPI_Transmit_mem caller size vla memAtPad).1.caller = caller := by
  unfold WIFI_SPI_Transmit_mem
  cases snprintfModel ((List.range (bTxLen size)).map vla) size caller with
  | none => rfl
  | some b1 =>
    simp only []
    cases (if size % 2 = 0 then strcatModel b1 memAtPad else some b1) with
    | none => rfl
    | some b2 => rfl
